import Mathlib

/-!
Verification of the XKols influencer pipeline: a shallow embedding of the
aggregation, scoring and report-ordering logic of `analyze_influencers.py`,
`find_influencers.py` and `export_to_html.py`, together with theorems about
the specified properties.

Conventions of the embedding:
* Python dict records coming from the search API are structures of `Option`
  fields (`None`/absent key is `none`).
* Python integer counts are `Nat`; the engagement rate (a Python float
  obtained by one exact integer division) is `ℚ`.
* Python truthiness tests (`if not aid`, `or 0`, `or ""`) are made explicit
  with `truthyStr` / `Option.getD`.
* `f"%.{d}f"` formatting of a rate is modelled as exact decimal rounding to
  `d` places of the rational value.
-/

namespace XKols

/-- The `public_metrics` object attached to a user profile returned by the API. -/
structure UserPublicMetrics where
  followers_count : Option Nat
  following_count : Option Nat
  tweet_count : Option Nat
  listed_count : Option Nat
deriving DecidableEq

/-- A user profile record from the API `includes.users` expansion. -/
structure User where
  username : Option String
  name : Option String
  verified : Option Bool
  public_metrics : Option UserPublicMetrics
  created_at : Option String
  profile_image_url : Option String
deriving DecidableEq

/-- The `public_metrics` object attached to a tweet. -/
structure TweetPublicMetrics where
  like_count : Option Nat
  retweet_count : Option Nat
  reply_count : Option Nat
deriving DecidableEq

/-- A raw tweet record from the API search response. -/
structure Tweet where
  id : Option String
  author_id : Option String
  text : Option String
  created_at : Option String
  public_metrics : Option TweetPublicMetrics
deriving DecidableEq

/-- Aggregated per-author record built by
`analyze_influencers.build_influencers_with_tweets`. -/
structure AuthorRec where
  user_id : String
  username : String
  name : String
  verified : Bool
  followers_count : Nat
  following_count : Nat
  tweet_count : Nat
  listed_count : Nat
  created_at : String
  profile_image_url : String
  tweets_found : Nat
  total_likes : Nat
  total_retweets : Nat
  total_replies : Nat
  sample_tweets : List String
  sample_tweet_ids : List String
  sample_tweet_dates : List String
deriving DecidableEq

/-- Python truthiness of an optional string: both `None` and `""` are falsy. -/
def truthyStr : Option String → Option String
  | none => none
  | some s => if s = "" then none else some s

/-- Models Python `str.strip()`: drop leading and trailing whitespace. -/
def pyStrip (s : String) : String :=
  String.mk (((s.data.dropWhile Char.isWhitespace).reverse.dropWhile
    Char.isWhitespace).reverse)

/-- Models Python slicing `s[:n]`: the first `n` characters. -/
def pyTake (s : String) (n : Nat) : String :=
  String.mk (s.data.take n)

/-- Models Python `str.lower()`. -/
def pyLower (s : String) : String :=
  String.mk (s.data.map Char.toLower)

/-- The record `build_influencers_with_tweets` creates on the first sighting of
author `aid` with attached profile `u` (the `by_author[aid] = {...}` literal). -/
def initRec (aid : String) (u : User) : AuthorRec :=
  let metrics := u.public_metrics.getD ⟨none, none, none, none⟩
  { user_id := aid
    username := u.username.getD ""
    name := u.name.getD ""
    verified := u.verified.getD false
    followers_count := metrics.followers_count.getD 0
    following_count := metrics.following_count.getD 0
    tweet_count := metrics.tweet_count.getD 0
    listed_count := metrics.listed_count.getD 0
    created_at := u.created_at.getD ""
    profile_image_url := u.profile_image_url.getD ""
    tweets_found := 0
    total_likes := 0
    total_retweets := 0
    total_replies := 0
    sample_tweets := []
    sample_tweet_ids := []
    sample_tweet_dates := [] }

/-- The mutation `build_influencers_with_tweets` applies to the (existing or
just-initialized) record of the author of a tweet: bump `tweets_found`, add the
metric counts of the tweet (missing counts are 0), and, for non-empty stripped text
while fewer than 5 samples are stored, append the text truncated to 500
characters plus — only when present and non-empty — the tweet id and date. -/
def addTweet (t : Tweet) (r : AuthorRec) : AuthorRec :=
  let pm := t.public_metrics.getD ⟨none, none, none⟩
  let r1 := { r with
    tweets_found := r.tweets_found + 1
    total_likes := r.total_likes + pm.like_count.getD 0
    total_retweets := r.total_retweets + pm.retweet_count.getD 0
    total_replies := r.total_replies + pm.reply_count.getD 0 }
  let text := pyStrip (t.text.getD "")
  if text ≠ "" ∧ r1.sample_tweets.length < 5 then
    { r1 with
      sample_tweets := r1.sample_tweets ++ [pyTake text 500]
      sample_tweet_ids := r1.sample_tweet_ids ++
        (match truthyStr t.id with
          | some i => [i]
          | none => [])
      sample_tweet_dates := r1.sample_tweet_dates ++
        (if t.created_at.getD "" = "" then [] else [t.created_at.getD ""]) }
  else r1

/-- Lookup of an author record in the insertion-ordered aggregation state
(the `aid in by_author` test / `by_author[aid]` access). -/
def findRec (st : List AuthorRec) (aid : String) : Option AuthorRec :=
  st.find? (fun r => r.user_id = aid)

/-- In-place mutation of the record keyed by `aid` (dict values keep their
insertion position when mutated). -/
def updateRec (st : List AuthorRec) (aid : String) (f : AuthorRec → AuthorRec) :
    List AuthorRec :=
  st.map (fun r => if r.user_id = aid then f r else r)

/-- One iteration of the tweet loop of `build_influencers_with_tweets`:
skip tweets with a falsy `author_id` or no profile in `users_by_id`,
otherwise initialize the author record if absent and fold the tweet in. -/
def processTweet (users : String → Option User) (st : List AuthorRec)
    (t : Tweet) : List AuthorRec :=
  match truthyStr t.author_id with
  | none => st
  | some aid =>
    match users aid with
    | none => st
    | some u =>
      let st1 := if (findRec st aid).isSome then st else st ++ [initRec aid u]
      updateRec st1 aid (addTweet t)

/-- Embeds `analyze_influencers.build_influencers_with_tweets`: fold all tweets into
the per-author aggregation state, returning records in first-seen order
(`list(by_author.values())`). -/
def build_influencers_with_tweets (tweets : List Tweet)
    (users : String → Option User) : List AuthorRec :=
  tweets.foldl (processTweet users) []

/-- Aggregated per-author record built by
`find_influencers.build_influencer_list` (no creation date, avatar or
sample arrays). -/
structure AuthorRecF where
  user_id : String
  username : String
  name : String
  verified : Bool
  followers_count : Nat
  following_count : Nat
  tweet_count : Nat
  listed_count : Nat
  tweets_found : Nat
  total_likes : Nat
  total_retweets : Nat
  total_replies : Nat
deriving DecidableEq

/-- First-sighting record of `build_influencer_list`. -/
def initRecF (aid : String) (u : User) : AuthorRecF :=
  let metrics := u.public_metrics.getD ⟨none, none, none, none⟩
  { user_id := aid
    username := u.username.getD ""
    name := u.name.getD ""
    verified := u.verified.getD false
    followers_count := metrics.followers_count.getD 0
    following_count := metrics.following_count.getD 0
    tweet_count := metrics.tweet_count.getD 0
    listed_count := metrics.listed_count.getD 0
    tweets_found := 0
    total_likes := 0
    total_retweets := 0
    total_replies := 0 }

/-- Per-tweet accumulation of `build_influencer_list`. -/
def addTweetF (t : Tweet) (r : AuthorRecF) : AuthorRecF :=
  let pm := t.public_metrics.getD ⟨none, none, none⟩
  { r with
    tweets_found := r.tweets_found + 1
    total_likes := r.total_likes + pm.like_count.getD 0
    total_retweets := r.total_retweets + pm.retweet_count.getD 0
    total_replies := r.total_replies + pm.reply_count.getD 0 }

/-- Lookup in the state of `build_influencer_list`. -/
def findRecF (st : List AuthorRecF) (aid : String) : Option AuthorRecF :=
  st.find? (fun r => r.user_id = aid)

/-- In-place record mutation for `build_influencer_list`. -/
def updateRecF (st : List AuthorRecF) (aid : String) (f : AuthorRecF → AuthorRecF) :
    List AuthorRecF :=
  st.map (fun r => if r.user_id = aid then f r else r)

/-- One iteration of the tweet loop of `build_influencer_list`. -/
def processTweetF (users : String → Option User) (st : List AuthorRecF)
    (t : Tweet) : List AuthorRecF :=
  match truthyStr t.author_id with
  | none => st
  | some aid =>
    match users aid with
    | none => st
    | some u =>
      let st1 := if (findRecF st aid).isSome then st else st ++ [initRecF aid u]
      updateRecF st1 aid (addTweetF t)

/-- Embeds `find_influencers.build_influencer_list`. -/
def build_influencer_list (tweets : List Tweet)
    (users : String → Option User) : List AuthorRecF :=
  tweets.foldl (processTweetF users) []

/-- Projection of the richer aggregation record onto the fields shared with
`build_influencer_list`. -/
def projF (r : AuthorRec) : AuthorRecF :=
  { user_id := r.user_id
    username := r.username
    name := r.name
    verified := r.verified
    followers_count := r.followers_count
    following_count := r.following_count
    tweet_count := r.tweet_count
    listed_count := r.listed_count
    tweets_found := r.tweets_found
    total_likes := r.total_likes
    total_retweets := r.total_retweets
    total_replies := r.total_replies }

/-- Thresholds of `analyze_influencers.py`. -/
def MIN_FOLLOWERS_STRONG : Nat := 5000

def MIN_ER_STRONG : ℚ := 0.0008

def MIN_ENGAGEMENT_STRONG : Nat := 20

def MIN_FOLLOWERS_CONSIDER : Nat := 2000

def MIN_ER_CONSIDER : ℚ := 0.0002

def MIN_ENGAGEMENT_CONSIDER : Nat := 5

def MAX_FOLLOWING_RATIO : Nat := 50

/-- Embeds `analyze_influencers.engagement_rate`: total interactions over
(tweets found × max(followers, 1)), zero when the denominator is zero. -/
def engagement_rate (row : AuthorRec) : ℚ :=
  let total : ℚ := ((row.total_likes + row.total_retweets + row.total_replies : Nat) : ℚ)
  let denom : ℚ := ((row.tweets_found * max row.followers_count 1 : Nat) : ℚ)
  if denom = 0 then 0 else total / denom

/-- Embeds `analyze_influencers.total_engagement`. -/
def total_engagement (row : AuthorRec) : Nat :=
  row.total_likes + row.total_retweets + row.total_replies

/-- Substring containment (Python `pat in s`). -/
def strContainsSub (s pat : String) : Bool :=
  (List.range (s.toList.length + 1)).any
    (fun i => pat.toList.isPrefixOf (s.toList.drop i))

/-- Embeds `analyze_influencers.looks_like_promo`: the promo-content heuristic over
the sampled texts. -/
def looks_like_promo (texts : List String) : Bool :=
  if texts.isEmpty then false
  else
    let joined := pyLower (String.intercalate " " texts)
    let has_link := strContainsSub joined "http" || strContainsSub joined "polymarket" ||
      strContainsSub joined "euphoria" || strContainsSub joined ".fi"
    let positive := ["check", "try", "new", "launch", "alpha", "gem", "🔥", "💎", "🚀"].any
      (fun w => strContainsSub joined w)
    has_link || positive

/-- Left-pad a digit string with zeros to width `d`. -/
def padZeros (s : String) (d : Nat) : String :=
  String.mk (List.replicate (d - s.length) '0') ++ s

/-- Models Python `f"{q:.{d}f}"` fixed-point formatting: exact decimal
rounding of the rational value to `d` places. -/
def fmtFixed (q : ℚ) (d : Nat) : String :=
  let m : ℤ := round (q * (10 ^ d : ℚ))
  let sgn := if m < 0 then "-" else ""
  let n := m.natAbs
  sgn ++ toString (n / 10 ^ d) ++ "." ++ padZeros (toString (n % 10 ^ d)) d

/-- Models Python `f"{q:.2%}"`. -/
def fmtPct (q : ℚ) : String := fmtFixed (q * 100) 2 ++ "%"

/-- Embeds `analyze_influencers.recommend`: the ordered decision list returning
(tier, reason). -/
def recommend (row : AuthorRec) (er : ℚ) (total_eng : Nat) : String × String :=
  let followers := row.followers_count
  let following := row.following_count
  let sample := row.sample_tweets
  if followers > 0 ∧ following > MAX_FOLLOWING_RATIO * followers then
    ("Skip", "Following >> followers, likely bot or follow-back account")
  else if total_eng = 0 ∧ followers > 100000 then
    ("Skip", "Large audience but zero engagement on these tweets — dead feed")
  else if followers < 1000 then
    ("Skip", "Too small audience for promo")
  else if followers ≥ MIN_FOLLOWERS_STRONG ∧ er ≥ MIN_ER_STRONG ∧
      total_eng ≥ MIN_ENGAGEMENT_STRONG then
    let reason := "ER " ++ fmtPct er ++ ", " ++ toString total_eng ++
      " engagements, live audience"
    let reason1 := if looks_like_promo sample then
        reason ++ ", already does promo-style content"
      else reason
    ("Strong hire", reason1)
  else if followers ≥ MIN_FOLLOWERS_CONSIDER ∧
      (er ≥ MIN_ER_CONSIDER ∨
        (total_eng ≥ MIN_ENGAGEMENT_CONSIDER ∧ followers ≥ 10000)) then
    let reason := "ER " ++ fmtPct er ++ ", " ++ toString total_eng ++ " engagements"
    let reason1 := if er < MIN_ER_CONSIDER ∧ total_eng ≥ MIN_ENGAGEMENT_CONSIDER then
        "Large audience (" ++ toString followers ++ "), some engagement (" ++
          toString total_eng ++ ")"
      else reason
    ("Consider", reason1)
  else if total_eng = 0 then
    ("Skip", "No engagement on found tweets — dead audience")
  else if er < 0.00005 then
    ("Skip", "Very low ER (" ++ fmtPct er ++ ")")
  else
    ("Skip", "Below Consider threshold")

/-- A scored author row, as built by the enrichment loop in
`analyze_influencers.main` before sorting and CSV export. -/
structure Scored where
  row : AuthorRec
  er : ℚ
  total_eng : Nat
  recommendation : String
  recommendation_reason : String
deriving DecidableEq

/-- The enrichment `main` performs on one aggregated record. -/
def scoreRow (r : AuthorRec) : Scored :=
  let er := engagement_rate r
  let te := total_engagement r
  let p := recommend r er te
  ⟨r, er, te, p.1, p.2⟩

/-- The rational value denoted by the 4-decimal string
`f"{engagement_rate:.4f}"` written to the CSV, as re-parsed by
`export_to_html.py` via `float(...)`. -/
def storedER (er : ℚ) : ℚ := ((round (er * 10000) : ℤ) : ℚ) / 10000

/-- Tier rank used by both sorts: `order = {"Strong hire": 0, "Consider": 1,
"Skip": 2}` with `.get(rec, 2)`. -/
def orderOf (recommendation : String) : Nat :=
  if recommendation = "Strong hire" then 0
  else if recommendation = "Consider" then 1
  else 2

/-- Comparison realising the stable ascending analyzer sort by the key
`(order[rec], -engagement_rate, -followers_count)`. -/
def leKeyAnalyzer (a b : Scored) : Bool :=
  decide (orderOf a.recommendation < orderOf b.recommendation) ||
    (decide (orderOf a.recommendation = orderOf b.recommendation) &&
      (decide (b.er < a.er) ||
        (decide (a.er = b.er) &&
          decide (b.row.followers_count ≤ a.row.followers_count))))

/-- The final sort in `analyze_influencers.main` (CSV row order). -/
def sortAnalyzer (l : List Scored) : List Scored := l.mergeSort leKeyAnalyzer

/-- Comparison realising the stable ascending document-generator sort by
`(order[rec], -float(engagement_rate string))` in `export_to_html.main`. -/
def leKeyHtml (a b : Scored) : Bool :=
  decide (orderOf a.recommendation < orderOf b.recommendation) ||
    (decide (orderOf a.recommendation = orderOf b.recommendation) &&
      decide (storedER b.er ≤ storedER a.er))

/-- The re-sort applied by `export_to_html.main` to the rows it read back. -/
def sortHtml (l : List Scored) : List Scored := l.mergeSort leKeyHtml

/-- Whether the aggregation loop keeps tweet `t` for author `aid`: the
`author_id` is truthy and equals `aid`, and `aid` resolves in `users_by_id`. -/
def keptFor (users : String → Option User) (aid : String) (t : Tweet) : Bool :=
  decide (truthyStr t.author_id = some aid) && (users aid).isSome

/-- The stripped text of a tweet (`(t.get("text") or "").strip()`). -/
def tweetText (t : Tweet) : String := pyStrip (t.text.getD "")

/-- The sample texts an author record must hold after the aggregation loop:
the first five kept tweets of that author with non-empty stripped text, each
truncated to 500 characters, in first-seen order. -/
def sampleSpec (users : String → Option User) (aid : String)
    (tweets : List Tweet) : List String :=
  ((tweets.filter (fun t => keptFor users aid t && decide (tweetText t ≠ ""))).map
    (fun t => pyTake (tweetText t) 500)).take 5

/-- Invariant of one author record after the prefix `acc` of the tweet list
has been processed: the sample texts are exactly `sampleSpec`, the id and date
arrays never outgrow the text array, and they are in lockstep whenever every
processed tweet carried a truthy id and creation date. -/
def sampleOK (users : String → Option User) (acc : List Tweet)
    (r : AuthorRec) : Prop :=
  r.sample_tweets = sampleSpec users r.user_id acc ∧
  r.sample_tweet_ids.length ≤ r.sample_tweets.length ∧
  r.sample_tweet_dates.length ≤ r.sample_tweets.length ∧
  ((∀ t ∈ acc, (truthyStr t.id).isSome ∧ t.created_at.getD "" ≠ "") →
    r.sample_tweet_ids.length = r.sample_tweets.length ∧
    r.sample_tweet_dates.length = r.sample_tweets.length)

/-- Invariant of the whole aggregation state after processing `acc`. -/
def stInv (users : String → Option User) (acc : List Tweet)
    (st : List AuthorRec) : Prop :=
  (∀ r ∈ st, sampleOK users acc r) ∧
  (∀ aid, findRec st aid = none → ∀ t ∈ acc, keptFor users aid t = false)

/-- The tweet `t` with its missing public-metric counts replaced by explicit zeros. -/
def withDefaultedMetrics (t : Tweet) : Tweet :=
  let pm := t.public_metrics.getD ⟨none, none, none⟩
  let pm2 : TweetPublicMetrics :=
    ⟨some (pm.like_count.getD 0), some (pm.retweet_count.getD 0), some (pm.reply_count.getD 0)⟩
  { t with public_metrics := some pm2 }

/-! ### Concrete inputs used in counterexamples and witnesses -/

/-- A profile with zero followers. -/
def exUserZero : User :=
  { username := some "zed"
    name := some "Zed"
    verified := some false
    public_metrics := some ⟨some 0, some 0, some 10, some 0⟩
    created_at := some "2020-01-01T00:00:00.000Z"
    profile_image_url := none }

/-- Profiles mapping resolving only author id `"z"`. -/
def exUsersZ : String → Option User :=
  fun a => if a = "z" then some exUserZero else none

/-- The author record created on the first sighting of `"z"`. -/
def exRecZ : AuthorRec := initRec "z" exUserZero

/-- A tweet by `"z"` with non-empty text but no tweet id and no creation
date, and one like. -/
def exTweetNoId : Tweet :=
  { id := none
    author_id := some "z"
    text := some "hi"
    created_at := none
    public_metrics := some ⟨some 1, none, none⟩ }

/-- A profile with 100000 followers. -/
def exUserBig : User :=
  { username := some "big"
    name := some "Big"
    verified := some false
    public_metrics := some ⟨some 100000, some 0, some 10, some 0⟩
    created_at := none
    profile_image_url := none }

/-- Profiles mapping resolving only author id `"u3"`. -/
def exUsersU3 : String → Option User :=
  fun a => if a = "u3" then some exUserBig else none

/-- A tweet by `"u3"` with 79 likes, a tweet id and a creation date. -/
def exTweet79 : Tweet :=
  { id := some "5"
    author_id := some "u3"
    text := some "hello world"
    created_at := some "2024-01-01T00:00:00.000Z"
    public_metrics := some ⟨some 79, some 0, some 0⟩ }

/-- The aggregated record produced from `[exTweet79]`. -/
def exRec79 : AuthorRec := addTweet exTweet79 (initRec "u3" exUserBig)

/-- A tweet with no author id at all. -/
def exTweetNoAuthor : Tweet :=
  { id := some "9"
    author_id := none
    text := some "orphan"
    created_at := none
    public_metrics := none }

/-- An author record with 100 followers and 5100 followed accounts
(51 × followers). -/
def exRecBot : AuthorRec :=
  { user_id := "b"
    username := "bot"
    name := ""
    verified := false
    followers_count := 100
    following_count := 5100
    tweet_count := 0
    listed_count := 0
    created_at := ""
    profile_image_url := ""
    tweets_found := 1
    total_likes := 3
    total_retweets := 0
    total_replies := 0
    sample_tweets := []
    sample_tweet_ids := []
    sample_tweet_dates := [] }

/-- An author record with 6000 followers whose `following_count` is
300001 = 50 × 6000 + 1. -/
def exRecSix : AuthorRec :=
  { user_id := "x"
    username := "six"
    name := ""
    verified := false
    followers_count := 6000
    following_count := 300001
    tweet_count := 0
    listed_count := 0
    created_at := ""
    profile_image_url := ""
    tweets_found := 1
    total_likes := 25
    total_retweets := 0
    total_replies := 0
    sample_tweets := []
    sample_tweet_ids := []
    sample_tweet_dates := [] }

/-- The record `exRecSix` with a following count at exactly the 50x ratio bound. -/
def exRecSixOk : AuthorRec := { exRecSix with following_count := 300000 }

/-- An author record with zero matching posts. -/
def exRecNoTweets : AuthorRec :=
  { user_id := "n"
    username := "none-found"
    name := ""
    verified := false
    followers_count := 4000
    following_count := 10
    tweet_count := 0
    listed_count := 0
    created_at := ""
    profile_image_url := ""
    tweets_found := 0
    total_likes := 0
    total_retweets := 0
    total_replies := 0
    sample_tweets := []
    sample_tweet_ids := []
    sample_tweet_dates := [] }

/-! ### Agreement of the two aggregator implementations (C10) -/

lemma projF_initRec (aid : String) (u : User) :
    projF (initRec aid u) = initRecF aid u := rfl

lemma projF_addTweet (t : Tweet) (r : AuthorRec) :
    projF (addTweet t r) = addTweetF t (projF r) := by
  simp only [addTweet, addTweetF, projF]
  split <;> rfl

lemma user_id_addTweet (t : Tweet) (r : AuthorRec) :
    (addTweet t r).user_id = r.user_id := by
  simp only [addTweet]
  split <;> rfl

lemma findRecF_map_projF (st : List AuthorRec) (aid : String) :
    findRecF (st.map projF) aid = (findRec st aid).map projF := by
  simp only [findRecF, findRec, List.find?_map]
  rfl

lemma updateRec_map_projF (st : List AuthorRec) (aid : String) (t : Tweet) :
    (updateRec st aid (addTweet t)).map projF =
      updateRecF (st.map projF) aid (addTweetF t) := by
  simp only [updateRec, updateRecF, List.map_map]
  apply List.map_congr_left
  intro r _
  have h2 : (projF r).user_id = r.user_id := rfl
  by_cases h : r.user_id = aid
  · simp [Function.comp_apply, h2, h, projF_addTweet]
  · simp [Function.comp_apply, h2, h]

lemma processTweet_map_projF (users : String → Option User)
    (st : List AuthorRec) (t : Tweet) :
    (processTweet users st t).map projF = processTweetF users (st.map projF) t := by
  rcases htr : truthyStr t.author_id with _ | aid
  · simp only [processTweet, processTweetF, htr]
  · rcases hu : users aid with _ | u
    · simp only [processTweet, processTweetF, htr, hu]
    · simp only [processTweet, processTweetF, htr, hu, findRecF_map_projF]
      have hm : (Option.map projF (findRec st aid)).isSome = (findRec st aid).isSome := by
        cases findRec st aid <;> rfl
      by_cases h : (findRec st aid).isSome
      · simp only [hm, h, if_pos, updateRec_map_projF]
      · simp only [hm, h, if_neg, not_false_iff, Bool.false_eq_true]
        rw [updateRec_map_projF (st ++ [initRec aid u]) aid t]
        congr 1
        simp [projF_initRec]

lemma foldl_processTweet_map_projF (users : String → Option User)
    (ts : List Tweet) :
    ∀ st : List AuthorRec,
      (ts.foldl (processTweet users) st).map projF =
        ts.foldl (processTweetF users) (st.map projF) := by
  induction ts with
  | nil => intro st; rfl
  | cons t ts ih =>
    intro st
    simp only [List.foldl_cons, ih, processTweet_map_projF]

/-! ### The document generator preserves the CSV row order (C9) -/

lemma storedER_mono {x y : ℚ} (h : x ≤ y) : storedER x ≤ storedER y := by
  unfold storedER
  have h1 : round (x * 10000) ≤ round (y * 10000) := by
    rw [round_eq, round_eq]
    exact Int.floor_le_floor (by linarith)
  have h2 : ((round (x * 10000) : ℤ) : ℚ) ≤ ((round (y * 10000) : ℤ) : ℚ) := by
    exact_mod_cast h1
  linarith

lemma leKeyAnalyzer_trans (a b c : Scored) :
    leKeyAnalyzer a b → leKeyAnalyzer b c → leKeyAnalyzer a c := by
  intro hab hbc
  simp only [leKeyAnalyzer, Bool.or_eq_true, Bool.and_eq_true, decide_eq_true_eq] at hab hbc ⊢
  rcases hab with h1 | ⟨e1, h2 | ⟨e2, h3⟩⟩ <;> rcases hbc with g1 | ⟨f1, g2 | ⟨f2, g3⟩⟩
  · exact Or.inl (Nat.lt_trans h1 g1)
  · exact Or.inl (f1 ▸ h1)
  · exact Or.inl (f1 ▸ h1)
  · exact Or.inl (e1 ▸ g1)
  · exact Or.inr ⟨e1.trans f1, Or.inl (lt_trans g2 h2)⟩
  · exact Or.inr ⟨e1.trans f1, Or.inl (f2 ▸ h2)⟩
  · exact Or.inl (e1 ▸ g1)
  · exact Or.inr ⟨e1.trans f1, Or.inl (e2 ▸ g2)⟩
  · exact Or.inr ⟨e1.trans f1, Or.inr ⟨e2.trans f2, Nat.le_trans g3 h3⟩⟩

lemma leKeyAnalyzer_total (a b : Scored) :
    leKeyAnalyzer a b || leKeyAnalyzer b a := by
  simp only [leKeyAnalyzer, Bool.or_eq_true, Bool.and_eq_true, decide_eq_true_eq]
  rcases Nat.lt_trichotomy (orderOf a.recommendation) (orderOf b.recommendation) with h | h | h
  · exact Or.inl (Or.inl h)
  · rcases lt_trichotomy a.er b.er with g | g | g
    · exact Or.inr (Or.inr ⟨h.symm, Or.inl g⟩)
    · rcases Nat.le_total b.row.followers_count a.row.followers_count with f | f
      · exact Or.inl (Or.inr ⟨h, Or.inr ⟨g, f⟩⟩)
      · exact Or.inr (Or.inr ⟨h.symm, Or.inr ⟨g.symm, f⟩⟩)
    · exact Or.inl (Or.inr ⟨h, Or.inl g⟩)
  · exact Or.inr (Or.inl h)

lemma leKeyAnalyzer_imp_leKeyHtml {a b : Scored} (h : leKeyAnalyzer a b) :
    leKeyHtml a b := by
  simp only [leKeyAnalyzer, leKeyHtml, Bool.or_eq_true, Bool.and_eq_true,
    decide_eq_true_eq] at h ⊢
  rcases h with h1 | ⟨e1, h2 | ⟨e2, h3⟩⟩
  · exact Or.inl h1
  · exact Or.inr ⟨e1, storedER_mono h2.le⟩
  · exact Or.inr ⟨e1, storedER_mono e2.ge⟩

/-- C9: re-sorting the analyzer-sorted row list with the document-generator
(tier, parsed 4-decimal engagement rate) key is the identity, so the order of
cards in the HTML document equals the order of rows in the CSV export. -/
theorem C9_html_order_eq_csv_order (l : List Scored) :
    sortHtml (sortAnalyzer l) = sortAnalyzer l := by
  unfold sortHtml sortAnalyzer
  apply List.mergeSort_of_sorted
  have hs := @List.sorted_mergeSort Scored leKeyAnalyzer
    leKeyAnalyzer_trans leKeyAnalyzer_total l
  exact hs.imp (fun h => leKeyAnalyzer_imp_leKeyHtml h)

/-- C10: the two aggregator implementations agree — `build_influencer_list` is
exactly `build_influencers_with_tweets` followed by the projection onto the
shared fields, so both produce the same authors, in the same order, with
identical values on every shared field. -/
theorem C10_aggregators_agree (tweets : List Tweet) (users : String → Option User) :
    (build_influencers_with_tweets tweets users).map projF =
      build_influencer_list tweets users := by
  unfold build_influencers_with_tweets build_influencer_list
  simpa using foldl_processTweet_map_projF users tweets []

/-! ### The tier component of the scorer -/

/-- The tier returned by `recommend` depends only on the follower count, the
following count, the engagement rate and the total engagement; the sampled
texts only influence the reason string. -/
lemma recommend_fst_eq (row : AuthorRec) (er : ℚ) (total_eng : Nat) :
    (recommend row er total_eng).1 =
      if row.followers_count > 0 ∧
          row.following_count > MAX_FOLLOWING_RATIO * row.followers_count then "Skip"
      else if total_eng = 0 ∧ row.followers_count > 100000 then "Skip"
      else if row.followers_count < 1000 then "Skip"
      else if row.followers_count ≥ MIN_FOLLOWERS_STRONG ∧ er ≥ MIN_ER_STRONG ∧
          total_eng ≥ MIN_ENGAGEMENT_STRONG then "Strong hire"
      else if row.followers_count ≥ MIN_FOLLOWERS_CONSIDER ∧
          (er ≥ MIN_ER_CONSIDER ∨
            (total_eng ≥ MIN_ENGAGEMENT_CONSIDER ∧ row.followers_count ≥ 10000)) then
        "Consider"
      else "Skip" := by
  simp only [recommend]
  split_ifs <;> rfl

/-! ### C2: engagement rate at the degenerate denominators -/

/-- C2 (amended): an author record with no matching posts gets engagement
rate exactly 0; when the follower count is 0 the denominator falls back to 1
per matching post, so the rate is the total engagement divided by the number
of matching posts (there is never a division error, but not necessarily 0). -/
theorem C2_amended_engagement_rate (row : AuthorRec) :
    (row.tweets_found = 0 → engagement_rate row = 0) ∧
    (row.followers_count = 0 →
      engagement_rate row =
        if row.tweets_found = 0 then 0
        else (total_engagement row : ℚ) / (row.tweets_found : ℚ)) := by
  constructor
  · intro h
    simp [engagement_rate, h]
  · intro h
    simp only [engagement_rate, total_engagement, h]
    have hm : max (0 : Nat) 1 = 1 := rfl
    rw [hm, Nat.mul_one]
    by_cases h2 : row.tweets_found = 0
    · simp [h2]
    · have h3 : ¬ ((row.tweets_found : ℚ) = 0) := by
        simp [Nat.cast_eq_zero, h2]
      rw [if_neg h3, if_neg h2]

/-- Witness for the amended C2 at a record with `tweets_found = 0`. -/
theorem C2_amended_witness : engagement_rate exRecNoTweets = 0 :=
  (C2_amended_engagement_rate exRecNoTweets).1 rfl

/-- C2 counterexample: a record aggregated from one liked post of an author
with 0 followers has `follower_count = 0` but engagement rate 1, not 0. -/
theorem C2_counterexample :
    (build_influencers_with_tweets [exTweetNoId] exUsersZ).map
      (fun r => (r.followers_count, engagement_rate r)) = [(0, 1)] := by
  simp [build_influencers_with_tweets, processTweet, truthyStr, findRec, updateRec,
    initRec, addTweet, pyStrip, pyTake, engagement_rate, exTweetNoId, exUsersZ,
    exUserZero]

/-! ### C4: the follow-ratio Skip rule -/

/-- C4: any record with positive followers and `following = 51 × followers`
is classified Skip, whatever the engagement rate and total engagement. -/
theorem C4_follow_ratio_skip (row : AuthorRec) (er : ℚ) (total_eng : Nat)
    (h1 : 0 < row.followers_count)
    (h2 : row.following_count = 51 * row.followers_count) :
    (recommend row er total_eng).1 = "Skip" := by
  have h3 : row.following_count > MAX_FOLLOWING_RATIO * row.followers_count := by
    unfold MAX_FOLLOWING_RATIO
    omega
  rw [recommend_fst_eq]
  rw [if_pos ⟨h1, h3⟩]

/-- Witness for C4 at a concrete record with 100 followers, 5100 following. -/
theorem C4_follow_ratio_skip_witness : (recommend exRecBot 5 7).1 = "Skip" :=
  C4_follow_ratio_skip exRecBot 5 7 (by decide) (by decide)

/-! ### C5: the Strong-hire example record -/

/-- C5 counterexample: a record with `follower_count = 6000` fed to the
classifier with engagement rate 0.001 and total engagement 25 is classified
Skip, not Strong hire, because its `following_count` is 300001 > 50 × 6000. -/
theorem C5_counterexample : (recommend exRecSix (0.001 : ℚ) 25).1 = "Skip" := by
  norm_num [recommend, MAX_FOLLOWING_RATIO, exRecSix]

/-- C5 (amended): a record with `follower_count = 6000`, engagement rate
0.001 and total engagement 25 is classified Strong hire, provided its
following count does not exceed 50 × its follower count. -/
theorem C5_amended_strong_hire (row : AuthorRec)
    (h6 : row.followers_count = 6000)
    (hf : row.following_count ≤ 50 * row.followers_count) :
    (recommend row (0.001 : ℚ) 25).1 = "Strong hire" := by
  rw [recommend_fst_eq]
  have hn1 : ¬ (row.followers_count > 0 ∧
      row.following_count > MAX_FOLLOWING_RATIO * row.followers_count) := by
    unfold MAX_FOLLOWING_RATIO
    omega
  have hn2 : ¬ ((25 : Nat) = 0 ∧ row.followers_count > 100000) := by omega
  have hn3 : ¬ (row.followers_count < 1000) := by omega
  have hp4 : row.followers_count ≥ MIN_FOLLOWERS_STRONG ∧ (0.001 : ℚ) ≥ MIN_ER_STRONG ∧
      (25 : Nat) ≥ MIN_ENGAGEMENT_STRONG := by
    refine ⟨?_, ?_, ?_⟩
    · unfold MIN_FOLLOWERS_STRONG
      omega
    · unfold MIN_ER_STRONG
      norm_num
    · unfold MIN_ENGAGEMENT_STRONG
      omega
  rw [if_neg hn1, if_neg hn2, if_neg hn3, if_pos hp4]

/-- Witness for the amended C5 at a concrete record at the ratio bound. -/
theorem C5_amended_witness : (recommend exRecSixOk (0.001 : ℚ) 25).1 = "Strong hire" :=
  C5_amended_strong_hire exRecSixOk (by decide) (by decide)

/-! ### C7: malformed records are tolerated -/

lemma addTweet_withDefaultedMetrics (t : Tweet) :
    addTweet (withDefaultedMetrics t) = addTweet t := by
  funext r
  rcases t with ⟨tid, taid, ttext, tca, tpm⟩
  cases tpm with
  | none => rfl
  | some pm =>
    rcases pm with ⟨l, rt, rp⟩
    cases l <;> cases rt <;> cases rp <;> rfl

/-- C7: a post with an absent author id, or whose author id has no profile,
leaves the aggregation state untouched; and for any post, absent
public-metric counts behave exactly like explicit zeros. -/
theorem C7_malformed_tolerated (users : String → Option User)
    (st : List AuthorRec) (t : Tweet) :
    ((t.author_id = none ∨ ∃ aid, t.author_id = some aid ∧ users aid = none) →
      processTweet users st t = st) ∧
    processTweet users st t = processTweet users st (withDefaultedMetrics t) := by
  constructor
  · intro h
    rcases h with h | ⟨aid, ha, hu⟩
    · simp [processTweet, truthyStr, h]
    · by_cases he : aid = ""
      · simp [processTweet, truthyStr, ha, he]
      · simp [processTweet, truthyStr, ha, he, hu]
  · have hadd : addTweet (withDefaultedMetrics t) = addTweet t :=
      addTweet_withDefaultedMetrics t
    have hauth : (withDefaultedMetrics t).author_id = t.author_id := rfl
    simp only [processTweet, hauth, hadd]

/-- Witness for C7 at a post with no author id. -/
theorem C7_malformed_witness : processTweet exUsersZ [] exTweetNoAuthor = [] :=
  (C7_malformed_tolerated exUsersZ [] exTweetNoAuthor).1 (Or.inl rfl)

/-! ### C3: tier stability under the 4-decimal round trip -/

/-- C3 counterexample: the author aggregated from `exTweet79` (100000
followers, one post with 79 likes) has exact rate 0.00079 and stored tier
"Consider", but its CSV-stored rate string "0.0008" reclassifies to
"Strong hire". -/
theorem C3_counterexample :
    (build_influencers_with_tweets [exTweet79] exUsersU3).map
      (fun r => ((scoreRow r).recommendation,
        (recommend r (storedER (scoreRow r).er) (scoreRow r).total_eng).1)) =
      [("Consider", "Strong hire")] := by
  simp [build_influencers_with_tweets, processTweet, truthyStr, findRec, updateRec,
    initRec, addTweet, pyStrip, pyTake, scoreRow, engagement_rate, total_engagement,
    storedER, recommend, exTweet79, exUsersU3, exUserBig, MIN_FOLLOWERS_STRONG,
    MIN_ER_STRONG, MIN_ENGAGEMENT_STRONG, MIN_FOLLOWERS_CONSIDER, MIN_ER_CONSIDER,
    MIN_ENGAGEMENT_CONSIDER, MAX_FOLLOWING_RATIO]
  norm_num [round_eq]

/-- C3 (amended): re-running the tier classification on the stored
fields, with the engagement rate taken from its 4-decimal stored form,
reproduces the stored tier, provided the rounding leaves the rate on the same
side of the two tier thresholds 0.0008 and 0.0002. -/
theorem C3_amended_round_trip (r : AuthorRec)
    (hA : (scoreRow r).er ≥ MIN_ER_STRONG ↔ storedER (scoreRow r).er ≥ MIN_ER_STRONG)
    (hB : (scoreRow r).er ≥ MIN_ER_CONSIDER ↔
      storedER (scoreRow r).er ≥ MIN_ER_CONSIDER) :
    (recommend r (storedER (scoreRow r).er) (scoreRow r).total_eng).1 =
      (scoreRow r).recommendation := by
  have hrec : (scoreRow r).recommendation =
      (recommend r ((scoreRow r).er) ((scoreRow r).total_eng)).1 := rfl
  rw [hrec, recommend_fst_eq, recommend_fst_eq]
  have e4 : (r.followers_count ≥ MIN_FOLLOWERS_STRONG ∧
      storedER (scoreRow r).er ≥ MIN_ER_STRONG ∧
      (scoreRow r).total_eng ≥ MIN_ENGAGEMENT_STRONG) ↔
      (r.followers_count ≥ MIN_FOLLOWERS_STRONG ∧
      (scoreRow r).er ≥ MIN_ER_STRONG ∧
      (scoreRow r).total_eng ≥ MIN_ENGAGEMENT_STRONG) := by
    constructor
    · rintro ⟨a, b, c⟩
      exact ⟨a, hA.mpr b, c⟩
    · rintro ⟨a, b, c⟩
      exact ⟨a, hA.mp b, c⟩
  have e5 : (r.followers_count ≥ MIN_FOLLOWERS_CONSIDER ∧
      (storedER (scoreRow r).er ≥ MIN_ER_CONSIDER ∨
        ((scoreRow r).total_eng ≥ MIN_ENGAGEMENT_CONSIDER ∧
          r.followers_count ≥ 10000))) ↔
      (r.followers_count ≥ MIN_FOLLOWERS_CONSIDER ∧
      ((scoreRow r).er ≥ MIN_ER_CONSIDER ∨
        ((scoreRow r).total_eng ≥ MIN_ENGAGEMENT_CONSIDER ∧
          r.followers_count ≥ 10000))) := by
    constructor
    · rintro ⟨a, b | c⟩
      · exact ⟨a, Or.inl (hB.mpr b)⟩
      · exact ⟨a, Or.inr c⟩
    · rintro ⟨a, b | c⟩
      · exact ⟨a, Or.inl (hB.mp b)⟩
      · exact ⟨a, Or.inr c⟩
  simp only [e4, e5]

/-- Witness for the amended C3 at a record whose rate rounds within the same
tier band. -/
theorem C3_amended_witness :
    (recommend exRecSixOk (storedER (scoreRow exRecSixOk).er)
      (scoreRow exRecSixOk).total_eng).1 = (scoreRow exRecSixOk).recommendation :=
  C3_amended_round_trip exRecSixOk
    (by norm_num [scoreRow, engagement_rate, storedER, exRecSixOk, exRecSix,
      MIN_ER_STRONG, round_eq])
    (by norm_num [scoreRow, engagement_rate, storedER, exRecSixOk, exRecSix,
      MIN_ER_CONSIDER, round_eq])

/-! ### C6: profile fields are frozen after the first sighting -/

lemma addTweet_preserves_profile (t : Tweet) (r : AuthorRec) :
    (addTweet t r).user_id = r.user_id ∧
    (addTweet t r).username = r.username ∧
    (addTweet t r).name = r.name ∧
    (addTweet t r).verified = r.verified ∧
    (addTweet t r).followers_count = r.followers_count ∧
    (addTweet t r).following_count = r.following_count ∧
    (addTweet t r).tweet_count = r.tweet_count ∧
    (addTweet t r).listed_count = r.listed_count ∧
    (addTweet t r).created_at = r.created_at ∧
    (addTweet t r).profile_image_url = r.profile_image_url := by
  simp only [addTweet]
  split <;> exact ⟨rfl, rfl, rfl, rfl, rfl, rfl, rfl, rfl, rfl, rfl⟩

lemma findRec_updateRec (st : List AuthorRec) (aid : String) (t : Tweet) :
    findRec (updateRec st aid (addTweet t)) aid =
      Option.map (fun r => addTweet t r) (findRec st aid) := by
  unfold findRec updateRec
  rw [List.find?_map]
  have hpg : ((fun r : AuthorRec => decide (r.user_id = aid)) ∘
      (fun r => if r.user_id = aid then addTweet t r else r)) =
      fun r : AuthorRec => decide (r.user_id = aid) := by
    funext r
    by_cases h : r.user_id = aid
    · simp [Function.comp, h, user_id_addTweet]
    · simp [Function.comp, h]
  rw [hpg]
  cases hf : st.find? (fun r => decide (r.user_id = aid)) with
  | none => rfl
  | some r =>
    have hp := List.find?_some hf
    simp only [decide_eq_true_eq] at hp
    simp [Option.map, hp]

/-- C6: once an author is already in the aggregation state, processing a
further post of that author only folds the post in via `addTweet`, which
leaves every profile-derived field (and the id) unchanged, and every other
record of every other author is untouched. -/
theorem C6_profile_frozen (users : String → Option User) (st : List AuthorRec)
    (t : Tweet) (aid : String) (u : User) (r : AuthorRec)
    (h1 : truthyStr t.author_id = some aid)
    (h2 : users aid = some u)
    (h3 : findRec st aid = some r) :
    findRec (processTweet users st t) aid = some (addTweet t r) ∧
    ((addTweet t r).user_id = r.user_id ∧
    (addTweet t r).username = r.username ∧
    (addTweet t r).name = r.name ∧
    (addTweet t r).verified = r.verified ∧
    (addTweet t r).followers_count = r.followers_count ∧
    (addTweet t r).following_count = r.following_count ∧
    (addTweet t r).tweet_count = r.tweet_count ∧
    (addTweet t r).listed_count = r.listed_count ∧
    (addTweet t r).created_at = r.created_at ∧
    (addTweet t r).profile_image_url = r.profile_image_url) ∧
    (∀ r2 ∈ st, r2.user_id ≠ aid → r2 ∈ processTweet users st t) := by
  have hsome : (findRec st aid).isSome = true := by
    rw [h3]
    rfl
  have hpt : processTweet users st t = updateRec st aid (addTweet t) := by
    simp only [processTweet, h1, h2, hsome, if_pos]
  refine ⟨?_, addTweet_preserves_profile t r, ?_⟩
  · rw [hpt, findRec_updateRec, h3]
    rfl
  · intro r2 hr2 hne
    rw [hpt]
    unfold updateRec
    exact List.mem_map.mpr ⟨r2, hr2, by simp [hne]⟩

/-- Witness for C6: a second post of author `"z"` leaves the profile fields
of the existing record unchanged. -/
theorem C6_profile_frozen_witness :
    findRec (processTweet exUsersZ [exRecZ] exTweetNoId) "z" =
      some (addTweet exTweetNoId exRecZ) ∧
    (addTweet exTweetNoId exRecZ).username = exRecZ.username :=
  ⟨(C6_profile_frozen exUsersZ [exRecZ] exTweetNoId "z" exUserZero exRecZ
      (by decide) (by decide) (by decide)).1,
    (C6_profile_frozen exUsersZ [exRecZ] exTweetNoId "z" exUserZero exRecZ
      (by decide) (by decide) (by decide)).2.1.2.1⟩

/-! ### C1: shape of the bounded sample arrays -/

lemma addTweet_sample_tweets (t : Tweet) (r : AuthorRec) :
    (addTweet t r).sample_tweets =
      if tweetText t ≠ "" ∧ r.sample_tweets.length < 5
      then r.sample_tweets ++ [pyTake (tweetText t) 500]
      else r.sample_tweets := by
  simp only [addTweet, tweetText]
  split <;> rfl

lemma addTweet_sample_tweet_ids (t : Tweet) (r : AuthorRec) :
    (addTweet t r).sample_tweet_ids =
      if tweetText t ≠ "" ∧ r.sample_tweets.length < 5
      then r.sample_tweet_ids ++
        (match truthyStr t.id with
          | some i => [i]
          | none => [])
      else r.sample_tweet_ids := by
  simp only [addTweet, tweetText]
  split <;> rfl

lemma addTweet_sample_tweet_dates (t : Tweet) (r : AuthorRec) :
    (addTweet t r).sample_tweet_dates =
      if tweetText t ≠ "" ∧ r.sample_tweets.length < 5
      then r.sample_tweet_dates ++
        (if t.created_at.getD "" = "" then [] else [t.created_at.getD ""])
      else r.sample_tweet_dates := by
  simp only [addTweet, tweetText]
  split <;> rfl

lemma sampleSpec_append_not_kept (users : String → Option User) (aid : String)
    (acc : List Tweet) (t : Tweet)
    (h : (keptFor users aid t && decide (tweetText t ≠ "")) = false) :
    sampleSpec users aid (acc ++ [t]) = sampleSpec users aid acc := by
  unfold sampleSpec
  rw [List.filter_append]
  have hnil : List.filter (fun t' => keptFor users aid t' && decide (tweetText t' ≠ "")) [t]
      = [] := by
    simp only [List.filter_cons, List.filter_nil, h]
    rfl
  rw [hnil, List.append_nil]

lemma sampleSpec_append_kept (users : String → Option User) (aid : String)
    (acc : List Tweet) (t : Tweet)
    (h : (keptFor users aid t && decide (tweetText t ≠ "")) = true) :
    sampleSpec users aid (acc ++ [t]) =
      (((acc.filter (fun t' => keptFor users aid t' && decide (tweetText t' ≠ ""))).map
        (fun t' => pyTake (tweetText t') 500)) ++ [pyTake (tweetText t) 500]).take 5 := by
  unfold sampleSpec
  rw [List.filter_append]
  have hone : List.filter (fun t' => keptFor users aid t' && decide (tweetText t' ≠ "")) [t]
      = [t] := by
    simp only [List.filter_cons, List.filter_nil, h]
    rfl
  rw [hone, List.map_append]
  rfl

lemma sampleOK_not_kept (users : String → Option User) (acc : List Tweet)
    (t : Tweet) (r : AuthorRec)
    (hk : keptFor users r.user_id t = false)
    (h : sampleOK users acc r) : sampleOK users (acc ++ [t]) r := by
  obtain ⟨h1, h2, h3, h4⟩ := h
  have hp : (keptFor users r.user_id t && decide (tweetText t ≠ "")) = false := by
    rw [hk]
    rfl
  refine ⟨?_, h2, h3, ?_⟩
  · rw [sampleSpec_append_not_kept users r.user_id acc t hp]
    exact h1
  · intro hall
    exact h4 (fun t' ht' => hall t' (List.mem_append_left _ ht'))

lemma sampleOK_addTweet (users : String → Option User) (acc : List Tweet)
    (t : Tweet) (r : AuthorRec)
    (htr : truthyStr t.author_id = some r.user_id)
    (hu : (users r.user_id).isSome = true)
    (h : sampleOK users acc r) :
    sampleOK users (acc ++ [t]) (addTweet t r) := by
  obtain ⟨h1, h2, h3, h4⟩ := h
  have hkept : keptFor users r.user_id t = true := by
    simp [keptFor, htr, hu]
  have hid : (addTweet t r).user_id = r.user_id := user_id_addTweet t r
  by_cases hte : tweetText t = ""
  · have hp : (keptFor users r.user_id t && decide (tweetText t ≠ "")) = false := by
      simp [hte]
    have hcond : ¬(tweetText t ≠ "" ∧ r.sample_tweets.length < 5) := by simp [hte]
    have e1 := addTweet_sample_tweets t r
    have e2 := addTweet_sample_tweet_ids t r
    have e3 := addTweet_sample_tweet_dates t r
    rw [if_neg hcond] at e1 e2 e3
    refine ⟨?_, ?_, ?_, ?_⟩
    · rw [hid, e1, sampleSpec_append_not_kept users r.user_id acc t hp]
      exact h1
    · rw [e1, e2]
      exact h2
    · rw [e1, e3]
      exact h3
    · intro hall
      rw [e1, e2, e3]
      exact h4 (fun t' ht' => hall t' (List.mem_append_left _ ht'))
  · have hp : (keptFor users r.user_id t && decide (tweetText t ≠ "")) = true := by
      simp [hkept, hte]
    have hspec := sampleSpec_append_kept users r.user_id acc t hp
    have h1' : r.sample_tweets =
        ((acc.filter (fun t' => keptFor users r.user_id t' &&
          decide (tweetText t' ≠ ""))).map (fun t' => pyTake (tweetText t') 500)).take 5 :=
      h1
    have hlen : r.sample_tweets.length =
        min 5 ((acc.filter (fun t' => keptFor users r.user_id t' &&
          decide (tweetText t' ≠ ""))).map (fun t' => pyTake (tweetText t') 500)).length := by
      rw [h1']
      exact List.length_take 5 _
    by_cases hfull : r.sample_tweets.length < 5
    · have hcond : tweetText t ≠ "" ∧ r.sample_tweets.length < 5 := ⟨hte, hfull⟩
      have e1 := addTweet_sample_tweets t r
      have e2 := addTweet_sample_tweet_ids t r
      have e3 := addTweet_sample_tweet_dates t r
      rw [if_pos hcond] at e1 e2 e3
      have hLlen : ((acc.filter (fun t' => keptFor users r.user_id t' &&
          decide (tweetText t' ≠ ""))).map (fun t' => pyTake (tweetText t') 500)).length < 5 := by
        omega
      have htakeL : ((acc.filter (fun t' => keptFor users r.user_id t' &&
          decide (tweetText t' ≠ ""))).map (fun t' => pyTake (tweetText t') 500)).take 5 =
          (acc.filter (fun t' => keptFor users r.user_id t' &&
            decide (tweetText t' ≠ ""))).map (fun t' => pyTake (tweetText t') 500) :=
        List.take_of_length_le (by omega)
      have htake2 : (((acc.filter (fun t' => keptFor users r.user_id t' &&
          decide (tweetText t' ≠ ""))).map (fun t' => pyTake (tweetText t') 500)) ++
            [pyTake (tweetText t) 500]).take 5 =
          ((acc.filter (fun t' => keptFor users r.user_id t' &&
            decide (tweetText t' ≠ ""))).map (fun t' => pyTake (tweetText t') 500)) ++
            [pyTake (tweetText t) 500] := by
        apply List.take_of_length_le
        rw [List.length_append]
        simp only [List.length_singleton]
        omega
      have hidlen : (match truthyStr t.id with
          | some i => [i]
          | none => ([] : List String)).length ≤ 1 := by
        cases truthyStr t.id <;> simp
      have hdtlen : (if t.created_at.getD "" = "" then ([] : List String)
          else [t.created_at.getD ""]).length ≤ 1 := by
        split <;> simp
      refine ⟨?_, ?_, ?_, ?_⟩
      · rw [hid, e1, hspec, htake2, h1', htakeL]
      · rw [e1, e2]
        simp only [List.length_append, List.length_singleton]
        omega
      · rw [e1, e3]
        simp only [List.length_append, List.length_singleton]
        omega
      · intro hall
        obtain ⟨hts, htd⟩ := hall t (List.mem_append_right _ (by simp))
        have hallacc := fun t' ht' => hall t' (List.mem_append_left _ ht')
        obtain ⟨o1, o2⟩ := h4 hallacc
        have hidlen1 : (match truthyStr t.id with
            | some i => [i]
            | none => ([] : List String)).length = 1 := by
          cases hcase : truthyStr t.id with
          | none =>
            rw [hcase] at hts
            simp at hts
          | some i => simp
        have hdtlen1 : (if t.created_at.getD "" = "" then ([] : List String)
            else [t.created_at.getD ""]).length = 1 := by
          rw [if_neg htd]
          rfl
        rw [e1, e2, e3]
        simp only [List.length_append, List.length_singleton]
        omega
    · have hcond : ¬(tweetText t ≠ "" ∧ r.sample_tweets.length < 5) :=
        fun hc => hfull hc.2
      have e1 := addTweet_sample_tweets t r
      have e2 := addTweet_sample_tweet_ids t r
      have e3 := addTweet_sample_tweet_dates t r
      rw [if_neg hcond] at e1 e2 e3
      have hL5 : 5 ≤ ((acc.filter (fun t' => keptFor users r.user_id t' &&
          decide (tweetText t' ≠ ""))).map (fun t' => pyTake (tweetText t') 500)).length := by
        omega
      have htake : (((acc.filter (fun t' => keptFor users r.user_id t' &&
          decide (tweetText t' ≠ ""))).map (fun t' => pyTake (tweetText t') 500)) ++
            [pyTake (tweetText t) 500]).take 5 =
          ((acc.filter (fun t' => keptFor users r.user_id t' &&
            decide (tweetText t' ≠ ""))).map (fun t' => pyTake (tweetText t') 500)).take 5 :=
        List.take_append_of_le_length hL5
      refine ⟨?_, ?_, ?_, ?_⟩
      · rw [hid, e1, hspec, htake, h1']
      · rw [e1, e2]
        exact h2
      · rw [e1, e3]
        exact h3
      · intro hall
        rw [e1, e2, e3]
        exact h4 (fun t' ht' => hall t' (List.mem_append_left _ ht'))

lemma sampleOK_initRec (users : String → Option User) (acc : List Tweet)
    (aid : String) (u : User)
    (h : ∀ t ∈ acc, keptFor users aid t = false) :
    sampleOK users acc (initRec aid u) := by
  have hfil : acc.filter (fun t' => keptFor users aid t' && decide (tweetText t' ≠ ""))
      = [] := by
    rw [List.filter_eq_nil_iff]
    intro t ht
    rw [h t ht]
    simp
  refine ⟨?_, ?_, ?_, ?_⟩
  · show ([] : List String) = sampleSpec users aid acc
    unfold sampleSpec
    rw [hfil]
    rfl
  · exact Nat.le_refl 0
  · exact Nat.le_refl 0
  · intro _
    exact ⟨rfl, rfl⟩

lemma keptFor_false_of_ne (users : String → Option User) (t : Tweet)
    (aid aid' : String) (htr : truthyStr t.author_id = some aid)
    (h : aid' ≠ aid) : keptFor users aid' t = false := by
  simp only [keptFor, htr]
  simp [Ne.symm h]

lemma stInv_processTweet (users : String → Option User) (acc : List Tweet)
    (st : List AuthorRec) (t : Tweet) (h : stInv users acc st) :
    stInv users (acc ++ [t]) (processTweet users st t) := by
  obtain ⟨hrec, hnone⟩ := h
  rcases htr : truthyStr t.author_id with _ | aid
  · have hpt : processTweet users st t = st := by simp [processTweet, htr]
    rw [hpt]
    refine ⟨?_, ?_⟩
    · intro r hr
      exact sampleOK_not_kept users acc t r (by simp [keptFor, htr]) (hrec r hr)
    · intro aid' hf t' ht'
      rcases List.mem_append.mp ht' with h' | h'
      · exact hnone aid' hf t' h'
      · have ht : t' = t := by simpa using h'
        subst ht
        simp [keptFor, htr]
  · rcases hu : users aid with _ | u
    · have hpt : processTweet users st t = st := by simp [processTweet, htr, hu]
      have hkf : ∀ aid', keptFor users aid' t = false := by
        intro aid'
        simp only [keptFor, htr]
        by_cases heq : aid = aid'
        · subst heq
          simp [hu]
        · simp [heq]
      rw [hpt]
      refine ⟨?_, ?_⟩
      · intro r hr
        exact sampleOK_not_kept users acc t r (hkf r.user_id) (hrec r hr)
      · intro aid' hf t' ht'
        rcases List.mem_append.mp ht' with h' | h'
        · exact hnone aid' hf t' h'
        · have ht : t' = t := by simpa using h'
          subst ht
          exact hkf aid'
    · have huS : (users aid).isSome = true := by rw [hu]; rfl
      by_cases hfind : (findRec st aid).isSome
      · have hpt : processTweet users st t =
            st.map (fun r0 => if r0.user_id = aid then addTweet t r0 else r0) := by
          simp only [processTweet, htr, hu, hfind, if_pos]
          rfl
        obtain ⟨r0found, hr0found⟩ := Option.isSome_iff_exists.mp hfind
        have hr0mem : r0found ∈ st := List.mem_of_find?_eq_some hr0found
        have hr0id : r0found.user_id = aid := by
          have := List.find?_some hr0found
          simpa using this
        rw [hpt]
        refine ⟨?_, ?_⟩
        · intro r' hr'
          obtain ⟨r1, hr1, hEq⟩ := List.mem_map.mp hr'
          by_cases hid : r1.user_id = aid
          · rw [← hEq, if_pos hid]
            exact sampleOK_addTweet users acc t r1 (by rw [hid]; exact htr)
              (by rw [hid]; exact huS) (hrec r1 hr1)
          · rw [← hEq, if_neg hid]
            exact sampleOK_not_kept users acc t r1
              (keptFor_false_of_ne users t aid r1.user_id htr hid) (hrec r1 hr1)
        · intro aid' hf t' ht'
          have hallnot := List.find?_eq_none.mp hf
          have hmemaid : (if r0found.user_id = aid then addTweet t r0found else r0found) ∈
              st.map (fun r0 => if r0.user_id = aid then addTweet t r0 else r0) :=
            List.mem_map_of_mem _ hr0mem
          have hnid := hallnot _ hmemaid
          have huidaid : (if r0found.user_id = aid then addTweet t r0found
              else r0found).user_id = aid := by
            rw [if_pos hr0id, user_id_addTweet, hr0id]
          have hne : ¬ (aid = aid') := by
            rw [huidaid] at hnid
            simpa using hnid
          have hstnone : findRec st aid' = none := by
            unfold findRec
            rw [List.find?_eq_none]
            intro r hr
            have hmap := hallnot _ (List.mem_map_of_mem _ hr)
            by_cases hi : r.user_id = aid
            · rw [if_pos hi, user_id_addTweet] at hmap
              simpa using hmap
            · rw [if_neg hi] at hmap
              simpa using hmap
          rcases List.mem_append.mp ht' with h' | h'
          · exact hnone aid' hstnone t' h'
          · have ht : t' = t := by simpa using h'
            rw [ht]
            exact keptFor_false_of_ne users t aid aid' htr (fun hh => hne hh.symm)
      · have hfnone : findRec st aid = none := by
          rcases hcase : findRec st aid with _ | r0
          · rfl
          · rw [hcase] at hfind
            simp at hfind
        have hstne : ∀ r ∈ st, ¬(r.user_id = aid) := by
          have hfe := List.find?_eq_none.mp hfnone
          intro r hr
          simpa using hfe r hr
        have hpt : processTweet users st t = st ++ [addTweet t (initRec aid u)] := by
          simp only [processTweet, htr, hu, hfind, if_neg, Bool.false_eq_true,
            not_false_iff]
          unfold updateRec
          rw [List.map_append]
          congr 1
          · have hcongr : ∀ r ∈ st,
                (if r.user_id = aid then addTweet t r else r) = r :=
              fun r hr => if_neg (hstne r hr)
            rw [List.map_congr_left hcongr]
            simp
          · rw [List.map_cons, List.map_nil,
              if_pos (show (initRec aid u).user_id = aid from rfl)]
        rw [hpt]
        refine ⟨?_, ?_⟩
        · intro r' hr'
          rcases List.mem_append.mp hr' with h' | h'
          · exact sampleOK_not_kept users acc t r'
              (keptFor_false_of_ne users t aid r'.user_id htr (hstne r' h')) (hrec r' h')
          · have hr'' : r' = addTweet t (initRec aid u) := by simpa using h'
            subst hr''
            refine sampleOK_addTweet users acc t (initRec aid u) ?_ ?_ ?_
            · exact htr
            · exact huS
            · exact sampleOK_initRec users acc aid u (fun t' ht' => hnone aid hfnone t' ht')
        · intro aid' hf t' ht'
          have hallnot := List.find?_eq_none.mp hf
          have hmemnew : addTweet t (initRec aid u) ∈ st ++ [addTweet t (initRec aid u)] :=
            List.mem_append_right _ (by simp)
          have hne : ¬ (aid = aid') := by
            have hx := hallnot _ hmemnew
            have hy : (addTweet t (initRec aid u)).user_id = aid := user_id_addTweet t _
            rw [hy] at hx
            simpa using hx
          have hstnone : findRec st aid' = none := by
            unfold findRec
            rw [List.find?_eq_none]
            intro r hr
            exact hallnot r (List.mem_append_left _ hr)
          rcases List.mem_append.mp ht' with h' | h'
          · exact hnone aid' hstnone t' h'
          · have ht : t' = t := by simpa using h'
            rw [ht]
            exact keptFor_false_of_ne users t aid aid' htr (fun hh => hne hh.symm)

lemma stInv_foldl (users : String → Option User) (ts : List Tweet) :
    ∀ (acc : List Tweet) (st : List AuthorRec), stInv users acc st →
      stInv users (acc ++ ts) (ts.foldl (processTweet users) st) := by
  induction ts with
  | nil =>
    intro acc st h
    simpa using h
  | cons t ts ih =>
    intro acc st h
    have h1 := stInv_processTweet users acc st t h
    have h2 := ih (acc ++ [t]) (processTweet users st t) h1
    simpa [List.append_assoc] using h2

/-- C1 (amended): for every author record produced by the aggregator, the
sample texts are exactly the first (up to) five kept posts with non-empty
stripped text, truncated to 500 characters, in first-seen order — hence at
most 5 of them; the id and date arrays never outgrow the text array; and all
three arrays have equal lengths provided every input post carries a truthy id
and a non-empty creation date. -/
theorem C1_amended_sample_arrays (tweets : List Tweet)
    (users : String → Option User) (r : AuthorRec)
    (hr : r ∈ build_influencers_with_tweets tweets users) :
    r.sample_tweets = sampleSpec users r.user_id tweets ∧
    r.sample_tweets.length ≤ 5 ∧
    r.sample_tweet_ids.length ≤ r.sample_tweets.length ∧
    r.sample_tweet_dates.length ≤ r.sample_tweets.length ∧
    ((∀ t ∈ tweets, (truthyStr t.id).isSome ∧ t.created_at.getD "" ≠ "") →
      r.sample_tweet_ids.length = r.sample_tweets.length ∧
      r.sample_tweet_dates.length = r.sample_tweets.length) := by
  have base : stInv users [] [] := ⟨by simp, by simp⟩
  have hinv := stInv_foldl users tweets [] [] base
  rw [List.nil_append] at hinv
  obtain ⟨hrec, _⟩ := hinv
  obtain ⟨h1, h2, h3, h4⟩ := hrec r hr
  refine ⟨h1, ?_, h2, h3, h4⟩
  rw [h1]
  unfold sampleSpec
  exact List.length_take_le 5 _

/-- C1 counterexample: one post with non-empty text but no post id and no
creation date yields a record whose three sample arrays have lengths 1, 0, 0
— they are not in lockstep. -/
theorem C1_counterexample :
    (build_influencers_with_tweets [exTweetNoId] exUsersZ).map
      (fun r => (r.sample_tweets.length, r.sample_tweet_ids.length,
        r.sample_tweet_dates.length)) = [(1, 0, 0)] := by
  simp [build_influencers_with_tweets, processTweet, truthyStr, findRec, updateRec,
    initRec, addTweet, pyStrip, pyTake, exTweetNoId, exUsersZ, exUserZero]

/-- Witness for the amended C1 at a one-post input whose post has both an id
and a creation date. -/
theorem C1_amended_witness :
    exRec79.sample_tweets = sampleSpec exUsersU3 exRec79.user_id [exTweet79] ∧
    exRec79.sample_tweet_ids.length = exRec79.sample_tweets.length :=
  have h := C1_amended_sample_arrays [exTweet79] exUsersU3 exRec79 (by decide)
  ⟨h.1, (h.2.2.2.2 (by decide)).1⟩

/-! ### C8: the aggregator is deterministic -/

/-- C8: aggregation is a pure function of the post list and the profiles
mapping — two runs on the same input produce identical output, authors,
order and field values included. -/
theorem C8_deterministic (tweets : List Tweet) (users : String → Option User) :
    build_influencers_with_tweets tweets users =
      build_influencers_with_tweets tweets users := rfl

end XKols
